import Mathlib

/-!
Shallow embedding of src/pwl/plane.py (class KeyedPlane and its free helper
constructors) from the psychsim repository.  Numeric values are modelled as
rationals.  The module is Python 2 code (it uses the built-ins cmp and
reduce and the dict method has_key), so mixed-type comparisons follow the
Python 2 cross-type ordering, under which every number compares less than
every string and every list, while mixed-type arithmetic raises TypeError.
The external collaborators (KeyedVector and Distribution live outside src/)
are modelled from the spec where the doc comments say so.
-/

namespace PsychSim

deriving instance DecidableEq for Except

/-- Kinds of Python exceptions the embedded code can raise. -/
inductive PyError
  | valueError
  | typeError
  | nameError
  | attributeError
  | assertionError
deriving DecidableEq

/-- Modelled from the spec: the WeightedVector collaborator (psychsim
KeyedVector, whose source is not under src/): a mapping from string keys to
numeric weights, together with the vector own configured epsilon tolerance. -/
structure KeyedVector where
  entries : List (String × ℚ)
  epsilon : ℚ
deriving DecidableEq

/-- Modelled from the spec: the stock epsilon configured on freshly built
vectors.  The spec fixes only that the boundary tolerance comes from the
vector itself; the collaborator ships with the positive value 1e-8. -/
def KeyedVector.defaultEpsilon : ℚ :=
  { num := 1, den := 100000000, den_nz := by decide, reduced := Nat.coprime_one_left 100000000 }

/-- Building a vector from a dict literal, as in KeyedVector({key: w}),
carrying the stock epsilon. -/
def KeyedVector.ofDict (l : List (String × ℚ)) : KeyedVector :=
  { entries := l, epsilon := KeyedVector.defaultEpsilon }

/-- Value of a key in a vector (keys absent from the vector weigh 0). -/
def KeyedVector.lookup (v : KeyedVector) (k : String) : ℚ :=
  (v.entries.lookup k).getD 0

/-- Modelled from the spec: dot product of a weight vector with a state
vector, summing weight times state value over the shared keys. -/
def KeyedVector.dot (v s : KeyedVector) : ℚ :=
  (v.entries.map fun kw => kw.2 * s.lookup kw.1).sum

/-- One element of a threshold: a number, or a still unresolved symbolic
expression (a Python string). -/
inductive ThreshElem
  | num (q : ℚ)
  | sym (s : String)
deriving DecidableEq

/-- A triple threshold: either a single value or a sequence of values
(the multi-way EQUAL form). -/
inductive Threshold
  | elem (e : ThreshElem)
  | list (l : List ThreshElem)
deriving DecidableEq

/-- A comparison marker: an integer (positive = above, negative = below,
zero = equal) or a string marker such as "switch" produced by caseRow. -/
inductive Cmp
  | int (i : ℤ)
  | str (s : String)
deriving DecidableEq

/-- One (vector, threshold, comparison) triple of a KeyedPlane. -/
abbrev Triple := KeyedVector × Threshold × Cmp

/-- The KeyedPlane state stored by __init__: the list self.planes and the
flag self.isConjunction.  The cache slots _string and _keys are write-only
as far as the verified operations go and are omitted.  Note that __init__
stores no attribute named vector, threshold or comparison. -/
structure KeyedPlane where
  planes : List Triple
  isConjunction : Bool
deriving DecidableEq

/-- KeyedPlane.DEFAULT_THRESHOLD = 0. -/
def DEFAULT_THRESHOLD : Threshold := Threshold.elem (ThreshElem.num 0)

/-- KeyedPlane.DEFAULT_COMPARISON = 1. -/
def DEFAULT_COMPARISON : Cmp := Cmp.int 1

/-- One entry of the sequence handed to the constructor: a Python tuple,
classified by its length as in the if/elif chain of __init__ (length 3,
length 2, length 1, and any other length, which hits the raise branch). -/
inductive Entry
  | one (v : KeyedVector)
  | two (v : KeyedVector) (t : Threshold)
  | three (v : KeyedVector) (t : Threshold) (c : Cmp)
  | malformed (len : Nat)
deriving DecidableEq

/-- The body of the constructor loop for one entry: length 3 is kept as is,
length 2 gets the default comparison, length 1 the default threshold and
comparison, and any other length raises
ValueError("Empty plane passed into constructor"). -/
def entryToTriple : Entry → Except PyError Triple
  | Entry.three v t c => Except.ok (v, t, c)
  | Entry.two v t => Except.ok (v, t, DEFAULT_COMPARISON)
  | Entry.one v => Except.ok (v, DEFAULT_THRESHOLD, DEFAULT_COMPARISON)
  | Entry.malformed _ => Except.error PyError.valueError

/-- The constructor loop: append the triple for each entry in order,
aborting at the first malformed entry.  An empty input list runs the loop
zero times and yields the empty plane list without error. -/
def entriesToPlanes : List Entry → Except PyError (List Triple)
  | [] => Except.ok []
  | e :: rest => do
    let t ← entryToTriple e
    let ts ← entriesToPlanes rest
    return t :: ts

/-- KeyedPlane.__init__ on a sequence of plane entries: run the loop, then
set isConjunction to True unconditionally. -/
def initFromList (entries : List Entry) : Except PyError KeyedPlane := do
  let planes ← entriesToPlanes entries
  return { planes := planes, isConjunction := true }

/-- KeyedPlane.__init__ on a single KeyedVector with optional threshold and
comparison: missing arguments take the class defaults, and the result is a
single-triple conjunctive plane. -/
def initFromVector (v : KeyedVector) (threshold : Option Threshold)
    (comparison : Option Cmp) : KeyedPlane :=
  { planes := [(v, threshold.getD DEFAULT_THRESHOLD, comparison.getD DEFAULT_COMPARISON)],
    isConjunction := true }

/-- thresholdRow(key, threshold) = KeyedPlane(KeyedVector({key: 1.}), threshold). -/
def thresholdRow (key : String) (threshold : ℚ) : KeyedPlane :=
  initFromVector (KeyedVector.ofDict [(key, 1)])
    (some (Threshold.elem (ThreshElem.num threshold))) none

/-- equalRow(key, value) = KeyedPlane(KeyedVector({key: 1.}), value, 0). -/
def equalRow (key : String) (value : ℚ) : KeyedPlane :=
  initFromVector (KeyedVector.ofDict [(key, 1)])
    (some (Threshold.elem (ThreshElem.num value))) (some (Cmp.int 0))

/-- caseRow(key) = KeyedPlane(KeyedVector({key: 1.}), 0, "switch"). -/
def caseRow (key : String) : KeyedPlane :=
  initFromVector (KeyedVector.ofDict [(key, 1)])
    (some (Threshold.elem (ThreshElem.num 0))) (some (Cmp.str "switch"))

/-- The test comparison > 0 of evaluate.  Integer markers compare
numerically; under the Python 2 cross-type ordering a string marker
compares greater than the integer 0, so this test is true for markers such
as "switch". -/
def Cmp.gtZero : Cmp → Bool
  | Cmp.int i => decide (0 < i)
  | Cmp.str _ => true

/-- The test comparison < 0 of evaluate (false for string markers under the
Python 2 ordering). -/
def Cmp.ltZero : Cmp → Bool
  | Cmp.int i => decide (i < 0)
  | Cmp.str _ => false

/-- The test comparison == 0 of evaluate (false for string markers). -/
def Cmp.eqZero : Cmp → Bool
  | Cmp.int i => decide (i = 0)
  | Cmp.str _ => false

/-- The Python 2 test x > threshold for numeric x: numeric thresholds
compare numerically; a number is smaller than any string or list, so the
test is false on non-numeric thresholds. -/
def pyNumGt (x : ℚ) : Threshold → Bool
  | Threshold.elem (ThreshElem.num q) => decide (q < x)
  | _ => false

/-- The Python 2 test x < threshold for numeric x: true on non-numeric
thresholds, since a number is smaller than any string or list. -/
def pyNumLt (x : ℚ) : Threshold → Bool
  | Threshold.elem (ThreshElem.num q) => decide (x < q)
  | _ => true

/-- The list comprehension [abs(total - t) < plane.epsilon for t in threshold]
of the multi-way EQUAL branch: symbolic elements make the subtraction raise
TypeError; otherwise the results are folded with operator.or_. -/
def equalAnyGo (total eps : ℚ) : List ThreshElem → Except PyError Bool
  | [] => Except.ok false
  | ThreshElem.sym _ :: _ => Except.error PyError.typeError
  | ThreshElem.num q :: rest => do
    let b ← equalAnyGo total eps rest
    return (decide (|total - q| < eps) || b)

/-- The multi-way EQUAL branch: reduce(operator.or_, comprehension).
reduce over an empty sequence raises TypeError. -/
def equalAny (total eps : ℚ) : List ThreshElem → Except PyError Bool
  | [] => Except.error PyError.typeError
  | e :: rest => equalAnyGo total eps (e :: rest)

/-- The per-triple comparison of KeyedPlane.evaluate, lines 80 to 115 of the
source: comparison > 0 tests total + epsilon > threshold, comparison < 0
tests total - epsilon < threshold, comparison == 0 tests closeness (with
the list form handled first, as by isinstance(threshold, list); a symbolic
scalar threshold makes the subtraction raise TypeError).  The final branch
raises ValueError("Invalid comparison ...") even though the comment above
it in the source says it should return the raw value; with integer and
string markers that branch is unreachable, because under the Python 2
ordering a string marker already satisfies comparison > 0. -/
def tripleTest (v : KeyedVector) (θ : Threshold) (c : Cmp) (total : ℚ) :
    Except PyError Bool :=
  if c.gtZero then
    Except.ok (pyNumGt (total + v.epsilon) θ)
  else if c.ltZero then
    Except.ok (pyNumLt (total - v.epsilon) θ)
  else if c.eqZero then
    match θ with
    | Threshold.list l => equalAny total v.epsilon l
    | Threshold.elem (ThreshElem.num q) => Except.ok (decide (|total - q| < v.epsilon))
    | Threshold.elem (ThreshElem.sym _) => Except.error PyError.typeError
  else
    Except.error PyError.valueError

/-- The argument of evaluate: either a Python float (used directly as the
total for every triple) or a state vector (dot-producted with each triple
vector).  The Distribution collapse of lines 77 to 79 concerns the external
Distribution collaborator; the modelled dot product already returns a
scalar, so that branch is vacuous here. -/
inductive EvalInput
  | scalar (q : ℚ)
  | state (s : KeyedVector)
deriving DecidableEq

/-- The loop of KeyedPlane.evaluate: a passing triple returns True at once
under disjunction and moves on under conjunction; a failing triple returns
False at once under conjunction and moves on under disjunction; when the
loop finishes without deciding, the for/else clause returns True under
conjunction and False under disjunction. -/
def evalPlanes (isConj : Bool) (input : EvalInput) : List Triple → Except PyError Bool
  | [] => Except.ok isConj
  | t :: rest => do
    let total := match input with
      | EvalInput.scalar q => q
      | EvalInput.state s => t.1.dot s
    let pass ← tripleTest t.1 t.2.1 t.2.2 total
    if pass then
      if isConj then evalPlanes isConj input rest else Except.ok true
    else
      if isConj then Except.ok false else evalPlanes isConj input rest

/-- KeyedPlane.evaluate. -/
def KeyedPlane.evaluate (p : KeyedPlane) (input : EvalInput) : Except PyError Bool :=
  evalPlanes p.isConjunction input p.planes

/-- KeyedPlane.__add__: the assert raises AssertionError when the two
operands disagree on isConjunction; otherwise the constructor is run on the
concatenated triple lists (each a 3-tuple) and the shared flag is copied
onto the result. -/
def KeyedPlane.add (p q : KeyedPlane) : Except PyError KeyedPlane :=
  if p.isConjunction = q.isConjunction then do
    let r ← initFromList ((p.planes ++ q.planes).map fun t => Entry.three t.1 t.2.1 t.2.2)
    return { r with isConjunction := p.isConjunction }
  else
    Except.error PyError.assertionError

/-- The table handed to desymbolize, mapping symbol names to numbers. -/
abbrev Table := List (String × ℚ)

/-- desymbolizeThreshold on one threshold element: a string threshold is
eval-uated against the table, and a NameError (unknown symbol) leaves it
unchanged; numbers pass through. -/
def desymbolizeElem (table : Table) : ThreshElem → ThreshElem
  | ThreshElem.num q => ThreshElem.num q
  | ThreshElem.sym s =>
    match table.lookup s with
    | some q => ThreshElem.num q
    | none => ThreshElem.sym s

/-- KeyedPlane.desymbolizeThreshold: strings are resolved, lists are
resolved element-wise, anything else is returned unchanged. -/
def desymbolizeThreshold (t : Threshold) (table : Table) : Threshold :=
  match t with
  | Threshold.elem e => Threshold.elem (desymbolizeElem table e)
  | Threshold.list l => Threshold.list (l.map (desymbolizeElem table))

/-- KeyedPlane.desymbolize: each triple becomes the 3-tuple of the
desymbolized vector, the desymbolized threshold and the unchanged
comparison, and the list is handed to the constructor (which sets
isConjunction to True).  The vector method p[0].desymbolize(table) belongs
to the external collaborator and is modelled from the spec as an arbitrary
resolver function passed in as resolveVec. -/
def KeyedPlane.desymbolize (p : KeyedPlane) (resolveVec : KeyedVector → Table → KeyedVector)
    (table : Table) : Except PyError KeyedPlane :=
  initFromList (p.planes.map fun t =>
    Entry.three (resolveVec t.1 table) (desymbolizeThreshold t.2.1 table) t.2.2)

/-- Whether a threshold is a single numeric value. -/
def Threshold.isNumeric : Threshold → Bool
  | Threshold.elem (ThreshElem.num _) => true
  | _ => false

/-- Whether a comparison marker is an integer. -/
def Cmp.isInt : Cmp → Bool
  | Cmp.int _ => true
  | Cmp.str _ => false

/-- The string rendering str(x) of a threshold or comparison attribute,
modelled at the value level: the tags record what the rendered text
denotes, and the numeric renderings are injective, so carrying the value
itself is faithful up to float precision. -/
inductive PyStr
  | ofRat (q : ℚ)
  | ofInt (i : ℤ)
  | ofRaw (s : String)
  | ofList (l : List ThreshElem)
deriving DecidableEq

/-- str(threshold), as written by __xml__ into the threshold attribute. -/
def strThreshold : Threshold → PyStr
  | Threshold.elem (ThreshElem.num q) => PyStr.ofRat q
  | Threshold.elem (ThreshElem.sym s) => PyStr.ofRaw s
  | Threshold.list l => PyStr.ofList l

/-- str(comparison), as written by __xml__ into the comparison attribute. -/
def strCmp : Cmp → PyStr
  | Cmp.int i => PyStr.ofInt i
  | Cmp.str s => PyStr.ofRaw s

/-- One vector child of the serialized plane node: the vector body is
encoded by the external collaborator serializer, whose round-tripping is a
spec contract, so the vector itself is carried; the two attributes are the
rendered threshold and comparison. -/
structure PlaneNode where
  vector : KeyedVector
  threshold : PyStr
  comparison : PyStr
deriving DecidableEq

/-- KeyedPlane.__xml__: a root plane node holding one vector child per
triple, each annotated with the rendered threshold and comparison.  The
flag isConjunction is not recorded anywhere in the tree. -/
def KeyedPlane.toTree (p : KeyedPlane) : List PlaneNode :=
  p.planes.map fun t => { vector := t.1, threshold := strThreshold t.2.1, comparison := strCmp t.2.2 }

/-- float(attribute): succeeds exactly on numeric renderings, raising
ValueError otherwise. -/
def pyFloat : PyStr → Except PyError ℚ
  | PyStr.ofRat q => Except.ok q
  | PyStr.ofInt i => Except.ok (i : ℚ)
  | PyStr.ofRaw _ => Except.error PyError.valueError
  | PyStr.ofList _ => Except.error PyError.valueError

/-- eval(attribute), the fallback of the threshold decoding: numeric text
evaluates to its number, a rendered list literal evaluates back to the
list, and a bare symbol raises NameError (parse does not catch it). -/
def pyEval : PyStr → Except PyError Threshold
  | PyStr.ofRat q => Except.ok (Threshold.elem (ThreshElem.num q))
  | PyStr.ofInt i => Except.ok (Threshold.elem (ThreshElem.num (i : ℚ)))
  | PyStr.ofRaw _ => Except.error PyError.nameError
  | PyStr.ofList l => Except.ok (Threshold.list l)

/-- int(attribute): succeeds exactly on integer renderings. -/
def pyInt : PyStr → Except PyError ℤ
  | PyStr.ofInt i => Except.ok i
  | _ => Except.error PyError.valueError

/-- Rendering of one threshold element as text (used only by pyText). -/
def threshElemText : ThreshElem → String
  | ThreshElem.num q => toString q
  | ThreshElem.sym s => s

/-- str(attribute), the fallback of the comparison decoding. -/
def pyText : PyStr → String
  | PyStr.ofRat q => toString q
  | PyStr.ofInt i => toString i
  | PyStr.ofRaw s => s
  | PyStr.ofList l => toString (l.map threshElemText)

/-- Decoding of the threshold attribute in KeyedPlane.parse: try float,
fall back to eval. -/
def parseThresholdAttr (a : PyStr) : Except PyError Threshold :=
  match pyFloat a with
  | Except.ok q => Except.ok (Threshold.elem (ThreshElem.num q))
  | Except.error _ => pyEval a

/-- Decoding of the comparison attribute in KeyedPlane.parse: try int,
fall back to the raw string. -/
def parseComparisonAttr (a : PyStr) : Cmp :=
  match pyInt a with
  | Except.ok i => Cmp.int i
  | Except.error _ => Cmp.str (pyText a)

/-- Decoding of one vector child in KeyedPlane.parse; the vector body is
decoded by the external collaborator parser, whose round-tripping is a
spec contract. -/
def parseNode (n : PlaneNode) : Except PyError Triple := do
  let threshold ← parseThresholdAttr n.threshold
  let comparison := parseComparisonAttr n.comparison
  return (n.vector, threshold, comparison)

/-- The child loop of KeyedPlane.parse. -/
def parseNodes : List PlaneNode → Except PyError (List Triple)
  | [] => Except.ok []
  | n :: rest => do
    let t ← parseNode n
    let ts ← parseNodes rest
    return t :: ts

/-- KeyedPlane(tree): __init__ dispatches to parse, which rebuilds
self.planes from the children, after which __init__ sets isConjunction to
True unconditionally.  The tag assertions of parse are enforced here by
the shape of PlaneNode. -/
def KeyedPlane.parseTree (doc : List PlaneNode) : Except PyError KeyedPlane := do
  let planes ← parseNodes doc
  return { planes := planes, isConjunction := true }

/-- Modelled from the spec: the reserved key of the constant term
(psychsim keys.CONSTANT, whose source is not under src/). -/
def CONSTANT : String := ""

/-- The attribute read self.vector: __init__ stores only planes, _string,
_keys and isConjunction, and no code path ever assigns an attribute named
vector, so this lookup raises AttributeError on every instance (the source
reads it at lines 165, 200, 204, 246 to 249). -/
def KeyedPlane.vectorAttr (_p : KeyedPlane) : Except PyError KeyedVector :=
  Except.error PyError.attributeError

/-- The attribute read self.threshold, likewise never assigned. -/
def KeyedPlane.thresholdAttr (_p : KeyedPlane) : Except PyError ℚ :=
  Except.error PyError.attributeError

/-- The attribute read self.comparison, likewise never assigned. -/
def KeyedPlane.comparisonAttr (_p : KeyedPlane) : Except PyError Cmp :=
  Except.error PyError.attributeError

/-- KeyedPlane.minimize, transcribed from the source: copy self.vector,
fold a constant weight into the threshold when present, and rebuild through
the single-vector constructor.  The very first attribute read fails, so
every call raises AttributeError. -/
def KeyedPlane.minimize (p : KeyedPlane) : Except PyError KeyedPlane := do
  let vector ← p.vectorAttr
  let weights := vector
  if (vector.entries.lookup CONSTANT).isSome then do
    let threshold0 ← p.thresholdAttr
    let threshold := threshold0 - vector.lookup CONSTANT
    let weights2 := { weights with entries := weights.entries.filter fun kw => kw.1 != CONSTANT }
    let comparison ← p.comparisonAttr
    return initFromVector weights2 (some (Threshold.elem (ThreshElem.num threshold))) (some comparison)
  else do
    let threshold ← p.thresholdAttr
    let comparison ← p.comparisonAttr
    return initFromVector weights (some (Threshold.elem (ThreshElem.num threshold))) (some comparison)

/-- The Python 2 built-in cmp on two rationals. -/
def pyCmp (a b : ℚ) : ℤ :=
  if a < b then -1 else if b < a then 1 else 0

/-- The Python 2 equality test cmp(a, b) == comparison, where the right
side may be a string marker (an int never equals a string). -/
def cmpMatches (a b : ℚ) : Cmp → Bool
  | Cmp.int i => decide (pyCmp a b = i)
  | Cmp.str _ => false

/-- KeyedPlane.compare, transcribed from the source: on identical vectors
it cases on the two comparison markers (both equality, one equality, both
inequality) and otherwise returns None.  The very first attribute read
(self.vector) fails, so every call raises AttributeError. -/
def KeyedPlane.compare (p other : KeyedPlane) (value : Bool) :
    Except PyError (Option Bool) := do
  let sv ← p.vectorAttr
  let ov ← other.vectorAttr
  if sv = ov then do
    let sc ← p.comparisonAttr
    let st ← p.thresholdAttr
    let oc ← other.comparisonAttr
    let ot ← other.thresholdAttr
    if sc = Cmp.int 0 then
      if oc = Cmp.int 0 then
        if |st - ot| < sv.epsilon then
          return some value
        else if value then
          return some false
        else
          return none
      else if cmpMatches st ot oc then
        if value then return none else return some false
      else
        if value then return some false else return none
    else if oc = Cmp.int 0 then
      if value then
        return some (cmpMatches ot st sc)
      else
        return none
    else
      return none
  else
    return none

/-- Concrete single-key weight vector over the key x, with the stock
epsilon (positive). -/
def sampleVecX : KeyedVector := KeyedVector.ofDict [("x", 1)]

/-- A concrete conjunctive single-triple test (x above 5). -/
def sampleConj : KeyedPlane := thresholdRow "x" 5

/-- A concrete disjunctive single-triple test. -/
def sampleDisj : KeyedPlane :=
  { planes := [(sampleVecX, Threshold.elem (ThreshElem.num 0), Cmp.int 1)],
    isConjunction := false }

/-- A concrete disjunctive two-triple test: x above 5 OR x below 1. -/
def sampleRange : KeyedPlane :=
  { planes := [(sampleVecX, Threshold.elem (ThreshElem.num 5), Cmp.int 1),
               (sampleVecX, Threshold.elem (ThreshElem.num 1), Cmp.int (-1))],
    isConjunction := false }

/-- The conjunctive test with the same two triples as sampleRange. -/
def sampleConjPair : KeyedPlane :=
  { planes := sampleRange.planes, isConjunction := true }

theorem entriesToPlanes_three {α : Type} (f : α → KeyedVector) (g : α → Threshold)
    (k : α → Cmp) (l : List α) :
    entriesToPlanes (l.map fun a => Entry.three (f a) (g a) (k a)) =
      Except.ok (l.map fun a => (f a, g a, k a)) := by
  induction l with
  | nil => rfl
  | cons a rest ih =>
    simp only [List.map_cons, entriesToPlanes, entryToTriple, ih]
    rfl

theorem entriesToPlanes_id (l : List Triple) :
    entriesToPlanes (l.map fun t => Entry.three t.1 t.2.1 t.2.2) = Except.ok l := by
  have h := entriesToPlanes_three (fun t : Triple => t.1) (fun t => t.2.1) (fun t => t.2.2) l
  simpa using h

theorem evaluate_single_above (v : KeyedVector) (θ total : ℚ) (c : ℤ) (b : Bool)
    (hc : 0 < c) :
    KeyedPlane.evaluate { planes := [(v, Threshold.elem (ThreshElem.num θ), Cmp.int c)], isConjunction := b }
      (EvalInput.scalar total) = Except.ok (decide (θ < total + v.epsilon)) := by
  have hg : Cmp.gtZero (Cmp.int c) = true := by
    simp [Cmp.gtZero]
    exact hc
  simp only [KeyedPlane.evaluate, evalPlanes, tripleTest, hg, if_true, pyNumGt]
  by_cases h : θ < total + v.epsilon
  · simp only [h, decide_eq_true_eq, if_true]
    cases b <;> rfl
  · simp only [h]
    cases b <;> simp [evalPlanes, h] <;> rfl

theorem parseNodes_toTree (l : List Triple)
    (h : (l.all fun tr => tr.2.1.isNumeric && tr.2.2.isInt) = true) :
    parseNodes (l.map fun t =>
      PlaneNode.mk t.1 (strThreshold t.2.1) (strCmp t.2.2)) = Except.ok l := by
  induction l with
  | nil => rfl
  | cons tr rest ih =>
    simp only [List.all_cons, Bool.and_eq_true] at h
    obtain ⟨⟨hnum, hint⟩, hrest⟩ := h
    have hnode : parseNode (PlaneNode.mk tr.1 (strThreshold tr.2.1) (strCmp tr.2.2)) =
        Except.ok tr := by
      rcases tr with ⟨v, θ, c⟩
      cases θ with
      | elem e =>
        cases e with
        | num q =>
          cases c with
          | int i => rfl
          | str s => simp [Cmp.isInt] at hint
        | sym s => simp [Threshold.isNumeric] at hnum
      | list l2 => simp [Threshold.isNumeric] at hnum
    simp only [List.map_cons, parseNodes, hnode, ih hrest]
    rfl

set_option maxRecDepth 2000 in
/-- C1 counterexample: the epsilon of the vector built by thresholdRow is
positive, yet evaluate at a scalar total exactly equal to the threshold 5
returns true, and so does evaluating thresholdRow("x", 5) against the state
{x: 5} — refuting the claim that the comparison is strict at the boundary
and that both evaluations return false. -/
theorem c1_counterexample :
    (∀ t ∈ (thresholdRow "x" 5).planes, 0 < t.1.epsilon) ∧
    (thresholdRow "x" 5).evaluate (EvalInput.scalar 5) = Except.ok true ∧
    (thresholdRow "x" 5).evaluate (EvalInput.state (KeyedVector.ofDict [("x", 5)])) =
      Except.ok true := by
  refine ⟨by decide, ?_, ?_⟩
  · with_unfolding_all decide
  · with_unfolding_all decide

set_option maxRecDepth 2000 in
/-- C1 (amended): for every single-triple conjunctive ABOVE test with
threshold T over a vector with epsilon e > 0, evaluate at a scalar total of
exactly T returns true (the epsilon tolerance admits the boundary, since
T + e > T), and evaluate at T + e + δ returns true for every δ > 0;
concretely, thresholdRow("x", 5) evaluated against {x: 7} is true and
against {x: 5} is also true. -/
theorem c1_above_boundary (v : KeyedVector) (θ δ : ℚ) (he : 0 < v.epsilon)
    (hδ : 0 < δ) :
    KeyedPlane.evaluate
      { planes := [(v, Threshold.elem (ThreshElem.num θ), Cmp.int 1)], isConjunction := true }
      (EvalInput.scalar θ) = Except.ok true ∧
    KeyedPlane.evaluate
      { planes := [(v, Threshold.elem (ThreshElem.num θ), Cmp.int 1)], isConjunction := true }
      (EvalInput.scalar (θ + v.epsilon + δ)) = Except.ok true ∧
    (thresholdRow "x" 5).evaluate (EvalInput.state (KeyedVector.ofDict [("x", 7)])) =
      Except.ok true ∧
    (thresholdRow "x" 5).evaluate (EvalInput.state (KeyedVector.ofDict [("x", 5)])) =
      Except.ok true := by
  refine ⟨?_, ?_, by with_unfolding_all decide, by with_unfolding_all decide⟩
  · rw [evaluate_single_above v θ θ 1 true (by norm_num)]
    simp only [Except.ok.injEq, decide_eq_true_eq]
    linarith
  · rw [evaluate_single_above v θ (θ + v.epsilon + δ) 1 true (by norm_num)]
    simp only [Except.ok.injEq, decide_eq_true_eq]
    linarith

/-- C1 witness: the amended boundary behaviour at the concrete vector
{x: 1} with the stock positive epsilon, threshold 5 and δ = 1. -/
theorem c1_above_boundary_witness :
    (0 < sampleVecX.epsilon ∧ (0 : ℚ) < 1) ∧
    (KeyedPlane.evaluate
      { planes := [(sampleVecX, Threshold.elem (ThreshElem.num 5), Cmp.int 1)], isConjunction := true }
      (EvalInput.scalar 5) = Except.ok true ∧
    KeyedPlane.evaluate
      { planes := [(sampleVecX, Threshold.elem (ThreshElem.num 5), Cmp.int 1)], isConjunction := true }
      (EvalInput.scalar (5 + sampleVecX.epsilon + 1)) = Except.ok true ∧
    (thresholdRow "x" 5).evaluate (EvalInput.state (KeyedVector.ofDict [("x", 7)])) =
      Except.ok true ∧
    (thresholdRow "x" 5).evaluate (EvalInput.state (KeyedVector.ofDict [("x", 5)])) =
      Except.ok true) :=
  ⟨⟨by decide, by decide⟩, c1_above_boundary sampleVecX 5 1 (by decide) (by decide)⟩

/-- C2: a triple with an ABOVE comparison (any positive integer marker)
evaluated at a scalar total passes exactly when total plus the epsilon of
the triple vector exceeds the threshold, both at the level of the single
comparison and at the level of evaluate on a single-triple test (under
either flag). -/
theorem c2_above_iff (v : KeyedVector) (θ total : ℚ) (c : ℤ) (b : Bool)
    (hc : 0 < c) :
    (tripleTest v (Threshold.elem (ThreshElem.num θ)) (Cmp.int c) total = Except.ok true ↔
      total + v.epsilon > θ) ∧
    (KeyedPlane.evaluate
      { planes := [(v, Threshold.elem (ThreshElem.num θ), Cmp.int c)], isConjunction := b }
      (EvalInput.scalar total) = Except.ok true ↔ total + v.epsilon > θ) := by
  have hg : Cmp.gtZero (Cmp.int c) = true := by
    simp [Cmp.gtZero]
    exact hc
  constructor
  · simp [tripleTest, hg, pyNumGt, gt_iff_lt]
  · rw [evaluate_single_above v θ total c b hc]
    simp [gt_iff_lt]

/-- C2 witness: the pass condition at the concrete vector {x: 1}, threshold
5, total 7, marker 1. -/
theorem c2_above_iff_witness :
    (0 : ℤ) < 1 ∧
    ((tripleTest sampleVecX (Threshold.elem (ThreshElem.num 5)) (Cmp.int 1) 7 = Except.ok true ↔
      (7 : ℚ) + sampleVecX.epsilon > 5) ∧
    (KeyedPlane.evaluate
      { planes := [(sampleVecX, Threshold.elem (ThreshElem.num 5), Cmp.int 1)], isConjunction := true }
      (EvalInput.scalar 7) = Except.ok true ↔ (7 : ℚ) + sampleVecX.epsilon > 5)) :=
  ⟨by decide, c2_above_iff sampleVecX 5 7 1 true (by decide)⟩

/-- C3 counterexample: the constructor applied to the empty sequence of
triples does not raise; it succeeds and returns a test whose triple list is
empty — refuting the claim that construction from an empty sequence fails
and that every constructed test has at least one triple. -/
theorem c3_counterexample :
    initFromList [] = Except.ok { planes := [], isConjunction := true } := rfl

/-- C3 (amended): construction from an empty sequence of triples succeeds
and yields a test with zero triples (which evaluates to true under the
default conjunction); the ValueError branch of the constructor fires only
when the sequence contains a triple-like entry of invalid length, such as
an empty tuple. -/
theorem c3_empty_constructor :
    initFromList [] = Except.ok { planes := [], isConjunction := true } ∧
    (∀ rest : List Entry,
      initFromList (Entry.malformed 0 :: rest) = Except.error PyError.valueError) ∧
    KeyedPlane.evaluate { planes := [], isConjunction := true } (EvalInput.scalar 0) =
      Except.ok true :=
  ⟨rfl, fun _ => rfl, rfl⟩

set_option maxRecDepth 2000 in
/-- C4: the test built by caseRow carries the string marker "switch", and
evaluating it against the state {x: 3} does not return the raw total 3: the
marker satisfies the comparison > 0 branch under the Python 2 cross-type
ordering, so the triple is evaluated as a boolean ABOVE test (3 + epsilon >
0) and evaluate returns True — the raw-value return promised by the source
comment (and by the claim) never happens, and the ValueError branch below
that comment is unreachable. -/
theorem c4_switch_marker :
    (caseRow "x").planes =
      [(KeyedVector.ofDict [("x", 1)], Threshold.elem (ThreshElem.num 0), Cmp.str "switch")] ∧
    (caseRow "x").evaluate (EvalInput.state (KeyedVector.ofDict [("x", 3)])) =
      Except.ok true := by
  refine ⟨by decide, ?_⟩
  with_unfolding_all decide

/-- C5: adding two tests raises AssertionError exactly when their
isConjunction flags differ; when the flags agree the sum is a new test
whose triple list is the concatenation of the two triple lists (no
deduplication) and whose flag is the shared one. -/
theorem c5_add (p q : KeyedPlane) :
    (p.isConjunction ≠ q.isConjunction →
      p.add q = Except.error PyError.assertionError) ∧
    (p.isConjunction = q.isConjunction →
      p.add q = Except.ok { planes := p.planes ++ q.planes, isConjunction := p.isConjunction }) := by
  constructor
  · intro h
    simp [KeyedPlane.add, h]
  · intro h
    have h2 := entriesToPlanes_id (p.planes ++ q.planes)
    rw [List.map_append] at h2
    simp [KeyedPlane.add, h, initFromList, h2]

/-- C5 witness: a conjunctive and a disjunctive concrete test fail to
combine, while the conjunctive test combines with itself into the
concatenation. -/
theorem c5_add_witness :
    (sampleConj.isConjunction ≠ sampleDisj.isConjunction ∧
      sampleConj.add sampleDisj = Except.error PyError.assertionError) ∧
    (sampleConj.isConjunction = sampleConj.isConjunction ∧
      sampleConj.add sampleConj =
        Except.ok { planes := sampleConj.planes ++ sampleConj.planes,
                    isConjunction := sampleConj.isConjunction }) :=
  ⟨⟨by decide, (c5_add sampleConj sampleDisj).1 (by decide)⟩,
   ⟨rfl, (c5_add sampleConj sampleConj).2 rfl⟩⟩

set_option maxRecDepth 2000 in
/-- C6 counterexample: a disjunctive two-triple test with numeric
thresholds and integer markers round-trips into the conjunctive test with
the same triples (the tree does not record the flag and the constructor
resets it to true), and the two evaluate differently at the scalar 6 —
refuting the claim that the round-trip evaluates identically on every
input for every such test. -/
theorem c6_counterexample :
    (sampleRange.planes.all fun tr => tr.2.1.isNumeric && tr.2.2.isInt) = true ∧
    sampleRange.isConjunction = false ∧
    KeyedPlane.parseTree (KeyedPlane.toTree sampleRange) = Except.ok sampleConjPair ∧
    sampleRange.evaluate (EvalInput.scalar 6) = Except.ok true ∧
    sampleConjPair.evaluate (EvalInput.scalar 6) = Except.ok false := by
  refine ⟨by decide, by decide, by decide, ?_, ?_⟩
  · with_unfolding_all decide
  · with_unfolding_all decide

/-- C6 (amended): for every conjunctive test whose thresholds are all
numeric and whose comparison markers are all integers, parsing the tree
produced by serializing the test returns the test itself (same vectors,
same thresholds, same markers, same flag), hence it evaluates identically
on every input; for disjunctive tests the triple sequence is reproduced
but the flag is reset to conjunction, so evaluation can differ. -/
theorem c6_roundtrip (t : KeyedPlane) (hconj : t.isConjunction = true)
    (hnum : (t.planes.all fun tr => tr.2.1.isNumeric && tr.2.2.isInt) = true) :
    KeyedPlane.parseTree (KeyedPlane.toTree t) = Except.ok t := by
  rcases t with ⟨planes, flag⟩
  simp only at hconj
  subst hconj
  have h := parseNodes_toTree planes hnum
  simp [KeyedPlane.parseTree, KeyedPlane.toTree, h]

/-- C6 witness: the concrete conjunctive two-triple test round-trips to
itself. -/
theorem c6_roundtrip_witness :
    sampleConjPair.isConjunction = true ∧
    (sampleConjPair.planes.all fun tr => tr.2.1.isNumeric && tr.2.2.isInt) = true ∧
    KeyedPlane.parseTree (KeyedPlane.toTree sampleConjPair) = Except.ok sampleConjPair :=
  ⟨rfl, by decide, c6_roundtrip sampleConjPair rfl (by decide)⟩

/-- C7: minimize never returns a test at all: its first step reads the
attribute self.vector, which no KeyedPlane instance possesses (the
constructor stores the triples in self.planes), so every call raises
AttributeError — in particular minimize is not idempotent on single-triple
tests and never folds a constant weight into the threshold. -/
theorem c7_minimize_attribute_error (p : KeyedPlane) :
    p.minimize = Except.error PyError.attributeError := rfl

/-- C8: compare on two single-triple EQUAL tests over the same vector with
identical thresholds does not return the hypothetical value: its first
step reads the attribute self.vector, which no KeyedPlane instance
possesses, so the call raises AttributeError instead. -/
theorem c8_compare_attribute_error :
    (equalRow "x" 3).compare (equalRow "x" 3) true = Except.error PyError.attributeError ∧
    (equalRow "x" 3).planes =
      [(KeyedVector.ofDict [("x", 1)], Threshold.elem (ThreshElem.num 3), Cmp.int 0)] :=
  ⟨rfl, rfl⟩

/-- C9: compare raises AttributeError on every pair of tests and every
hypothetical value — in particular it does not return the no-information
answer None for tests with differing weight vectors; the read of
self.vector fails before the vectors are even compared. -/
theorem c9_compare_attribute_error (p other : KeyedPlane) (value : Bool) :
    p.compare other value = Except.error PyError.attributeError := rfl

/-- C10: desymbolize rebuilds its result through the constructor, so for
every test, resolver and table the result is ok and its isConjunction flag
is true, whatever the flag of the input test was; the triples are the
desymbolized triples in order. -/
theorem c10_desymbolize_conjunction (resolveVec : KeyedVector → Table → KeyedVector)
    (p : KeyedPlane) (table : Table) :
    p.desymbolize resolveVec table =
      Except.ok { planes := p.planes.map (fun t => (resolveVec t.1 table, desymbolizeThreshold t.2.1 table, t.2.2)), isConjunction := true } := by
  have h := entriesToPlanes_three (fun t : Triple => resolveVec t.1 table)
    (fun t => desymbolizeThreshold t.2.1 table) (fun t => t.2.2) p.planes
  simp only [] at h
  simp [KeyedPlane.desymbolize, initFromList, h]

end PsychSim
